import Mathlib

/-!
Verification of the Farm Rescue economic simulation core.

The JavaScript source is shallowly embedded: JS numbers become `Rat`
(timestamps in milliseconds and money amounts are exact in the game's
range), `Date.now()` becomes an explicit `now` argument, `Math.random()`
draws become explicit rational inputs, and the `null`-able timestamps
become `Option Rat`.  Fallible operations return `Option` (with `none`
standing for a thrown exception) or a `Bool × _` success pair, exactly
mirroring each method's return value.
-/

namespace FarmRescue

/-! ### Configuration (config.js / constants.js) -/

def STARTING_MONEY : ℚ := 50
def GOAL_MONEY : ℚ := 5000
def TOTAL_DAYS : ℤ := 10
def WEATHER_FORECAST_DAYS : ℤ := 7
def MAX_CROP_SLOTS : ℕ := 10
def MAX_ANIMAL_SLOTS : ℕ := 5
def WEATHER_MIN : ℚ := 1/10
def WEATHER_MAX : ℚ := 1

/-- One row of `GAME_CONFIG.WEATHER_DEMAND_RULES`. -/
structure DemandRule where
  minWeather : ℚ
  maxWeather : ℚ
  demandMultiplier : ℚ
  marketCondition : String
deriving Repr, DecidableEq

/-- `GAME_CONFIG.WEATHER_DEMAND_RULES`, in source order (best to worst weather). -/
def WEATHER_DEMAND_RULES : List DemandRule :=
  [ ⟨1,      1,      4/5,   "Oversupply"⟩,
    ⟨9/10,   99/100, 9/10,  "Good Supply"⟩,
    ⟨4/5,    89/100, 1,     "Balanced"⟩,
    ⟨7/10,   79/100, 6/5,   "Slight Shortage"⟩,
    ⟨3/5,    69/100, 13/10, "Moderate Shortage"⟩,
    ⟨1/2,    59/100, 7/5,   "Significant Shortage"⟩,
    ⟨2/5,    49/100, 3/2,   "High Shortage"⟩,
    ⟨3/10,   39/100, 17/10, "Severe Shortage"⟩,
    ⟨1/10,   29/100, 2,     "Critical Shortage"⟩ ]

/-- `GAME_CONFIG.MILESTONES` (the `amount` thresholds, in source order). -/
def MILESTONES : List ℚ := [100, 1250, 2500, 3750, 5000]

/-- One row of `GAME_CONFIG.CROPS`. -/
structure CropDef where
  id : String
  seedCost : ℚ
  growthTime : ℚ
  baseSellPrice : ℚ
  tier : ℕ
deriving Repr, DecidableEq

def CROPS : List CropDef :=
  [ ⟨"wheat", 10, 2, 18, 1⟩,
    ⟨"carrot", 30, 3, 60, 2⟩,
    ⟨"corn", 70, 4, 150, 3⟩,
    ⟨"strawberry", 150, 5, 350, 4⟩,
    ⟨"watermelon", 300, 7, 750, 5⟩ ]

/-- One row of `GAME_CONFIG.ANIMALS`. -/
structure AnimalDef where
  id : String
  purchaseCost : ℚ
  growthTime : ℚ
  baseSellPrice : ℚ
  breedingChance : ℚ
  offspringSurvivalRate : ℚ
  tier : ℕ
deriving Repr, DecidableEq

def ANIMALS : List AnimalDef :=
  [ ⟨"chicken", 40, 3, 75, 35/100, 75/100, 1⟩,
    ⟨"rabbit", 100, 4, 200, 40/100, 70/100, 2⟩,
    ⟨"sheep", 220, 5, 480, 30/100, 65/100, 3⟩,
    ⟨"pig", 450, 6, 1050, 25/100, 60/100, 4⟩,
    ⟨"cow", 900, 8, 2250, 20/100, 55/100, 5⟩ ]

/-! ### helpers.js -/

/-- `HELPERS.clamp(value, min, max)` = `Math.min(Math.max(value, min), max)`. -/
def clamp (value mn mx : ℚ) : ℚ := min (max value mn) mx

/-- `HELPERS.calculatePercentage(current, total)`: 0 when `total` is 0,
100 when `current >= total`, else `(current/total)*100` clamped to [0,100]. -/
def calculatePercentage (current total : ℚ) : ℚ :=
  if total = 0 then 0
  else if total ≤ current then 100
  else clamp (current / total * 100) 0 100

/-- `HELPERS.minutesToMilliseconds(minutes)` (negative input yields 0). -/
def minutesToMilliseconds (minutes : ℚ) : ℚ :=
  if minutes < 0 then 0 else minutes * 60 * 1000

/-- `HELPERS.getElapsedTime(startTime)` with `Date.now()` made an explicit
`now` argument; a `null` or negative start yields 0. -/
def getElapsedTime (now : ℚ) (startTime : Option ℚ) : ℚ :=
  match startTime with
  | none => 0
  | some st => if st < 0 then 0 else now - st

/-- `HELPERS.randomBoolean(probability)` with the `Math.random()` draw made
an explicit argument `r`; out-of-range probabilities yield `false`. -/
def randomBoolean (probability r : ℚ) : Bool :=
  if probability < 0 ∨ 1 < probability then false else decide (r < probability)

/-! ### Weather.js -/

/-- `Weather.calculateDemandIndex(weatherValue)`: clamp to the valid range,
return the multiplier of the first matching rule, neutral 1.0 as fallback. -/
def calculateDemandIndex (weatherValue : ℚ) : ℚ :=
  let v := clamp weatherValue WEATHER_MIN WEATHER_MAX
  match WEATHER_DEMAND_RULES.find? (fun rule =>
      decide (rule.minWeather ≤ v) && decide (v ≤ rule.maxWeather)) with
  | some rule => rule.demandMultiplier
  | none => 1

/-- `Weather::_getMarketCondition()` (first matching rule's label, on the
unclamped stored value). -/
def getMarketCondition (weatherValue : ℚ) : String :=
  match WEATHER_DEMAND_RULES.find? (fun rule =>
      decide (rule.minWeather ≤ weatherValue) && decide (weatherValue ≤ rule.maxWeather)) with
  | some rule => rule.marketCondition
  | none => "Unknown"

/-- A `Weather` instance. -/
structure Weather where
  day : ℤ
  weatherValue : ℚ
  demandIndex : ℚ
  marketCondition : String
deriving Repr, DecidableEq

/-- The `Weather` constructor's day validation: a day outside
`1..TOTAL_DAYS` is silently replaced by 1. -/
def normalizeDay (day : ℤ) : ℤ :=
  if day < 1 ∨ TOTAL_DAYS < day then 1 else day

/-- The `Weather(day)` constructor with the random weather sample made an
explicit argument. -/
def Weather.create (day : ℤ) (sampled : ℚ) : Weather :=
  { day := normalizeDay day
    weatherValue := sampled
    demandIndex := calculateDemandIndex sampled
    marketCondition := getMarketCondition sampled }

/-- `Weather.generateForecast(numDays, startDay)` with the per-day random
samples supplied by `vals`.  Invalid counts/starts fall back to 7 / 1. -/
def generateForecast (numDays startDay : ℤ) (vals : ℕ → ℚ) : List Weather :=
  let n := if numDays < 1 then 7 else numDays
  let s := if startDay < 1 then 1 else startDay
  (List.range n.toNat).map (fun (i : ℕ) => Weather.create (s + (i : ℤ)) (vals i))

/-! ### Crop.js -/

inductive CropStatus where
  | seed | growing | mature | harvested
deriving Repr, DecidableEq

/-- A `Crop` instance (the display-only fields are omitted). -/
structure Crop where
  id : ℕ
  type : String
  seedCost : ℚ
  baseSellPrice : ℚ
  growthDuration : ℚ
  status : CropStatus
  plantTime : Option ℚ
  harvestTime : Option ℚ
deriving Repr, DecidableEq

/-- `new Crop(type)`: look the type up in `GAME_CONFIG.CROPS`; `none` models
the thrown `Invalid crop type` error. -/
def Crop.create (type : String) (uid : ℕ) : Option Crop :=
  (CROPS.find? (fun c => c.id == type)).map (fun d =>
    { id := uid, type := d.id, seedCost := d.seedCost,
      baseSellPrice := d.baseSellPrice,
      growthDuration := minutesToMilliseconds d.growthTime,
      status := .seed, plantTime := none, harvestTime := none })

/-- `Crop.plant()`: SEED → GROWING, stamping `plantTime`;
refused (no-op) in any other status. -/
def Crop.plant (c : Crop) (now : ℚ) : Bool × Crop :=
  if c.status ≠ .seed then (false, c)
  else (true, { c with status := .growing, plantTime := some now })

/-- `Crop.harvest()`: MATURE → HARVESTED; refused in any other status. -/
def Crop.harvest (c : Crop) (now : ℚ) : Bool × Crop :=
  if c.status ≠ .mature then (false, c)
  else (true, { c with status := .harvested, harvestTime := some now })

/-- `Crop.isMature()`: lazy transition — a GROWING crop whose elapsed time
reached its duration flips to MATURE as a side effect of the query. -/
def Crop.isMature (c : Crop) (now : ℚ) : Bool × Crop :=
  if c.status ≠ .growing then (c.status = .mature, c)
  else
    let elapsed := getElapsedTime now c.plantTime
    if c.growthDuration ≤ elapsed then (true, { c with status := .mature })
    else (false, c)

/-- `Crop.getGrowthProgress()`: 0 before planting, 100 once mature or
harvested, else the elapsed percentage capped at 100. -/
def Crop.getGrowthProgress (c : Crop) (now : ℚ) : ℚ :=
  if c.status = .seed then 0
  else if c.status = .mature ∨ c.status = .harvested then 100
  else min 100 (calculatePercentage (getElapsedTime now c.plantTime) c.growthDuration)

/-! ### Animal.js -/

inductive AnimalStatus where
  | young | growing | mature | breeding
deriving Repr, DecidableEq

/-- An `Animal` instance.  `offspring` is the owned list of child animals,
hence the nested inductive. -/
inductive Animal where
  | mk
      (id : ℕ)
      (type : String)
      (growthDuration : ℚ)
      (status : AnimalStatus)
      (placeTime : Option ℚ)
      (breedingChance : ℚ)
      (offspringSurvivalRate : ℚ)
      (isPurchased : Bool)
      (hasOffspring : Bool)
      (breedingAttempted : Bool)
      (offspring : List Animal)

def Animal.id : Animal → ℕ
  | .mk i _ _ _ _ _ _ _ _ _ _ => i

def Animal.type : Animal → String
  | .mk _ t _ _ _ _ _ _ _ _ _ => t

def Animal.growthDuration : Animal → ℚ
  | .mk _ _ g _ _ _ _ _ _ _ _ => g

def Animal.status : Animal → AnimalStatus
  | .mk _ _ _ st _ _ _ _ _ _ _ => st

def Animal.placeTime : Animal → Option ℚ
  | .mk _ _ _ _ p _ _ _ _ _ _ => p

def Animal.breedingChance : Animal → ℚ
  | .mk _ _ _ _ _ bc _ _ _ _ _ => bc

def Animal.offspringSurvivalRate : Animal → ℚ
  | .mk _ _ _ _ _ _ sr _ _ _ _ => sr

def Animal.isPurchased : Animal → Bool
  | .mk _ _ _ _ _ _ _ ip _ _ _ => ip

def Animal.hasOffspring : Animal → Bool
  | .mk _ _ _ _ _ _ _ _ ho _ _ => ho

def Animal.breedingAttempted : Animal → Bool
  | .mk _ _ _ _ _ _ _ _ _ ba _ => ba

def Animal.offspring : Animal → List Animal
  | .mk _ _ _ _ _ _ _ _ _ _ off => off

/-- Build an `Animal` from its config row (the body of the constructor
once the type has been looked up). -/
def Animal.ofDef (uid : ℕ) (d : AnimalDef) (isPurchased : Bool) : Animal :=
  .mk uid d.id (minutesToMilliseconds d.growthTime) .young none
    d.breedingChance d.offspringSurvivalRate isPurchased false false []

/-- `new Animal(type, isPurchased)`; `none` models the thrown
`Invalid animal type` error. -/
def Animal.create (type : String) (isPurchased : Bool) (uid : ℕ) : Option Animal :=
  (ANIMALS.find? (fun a => a.id == type)).map (fun d => Animal.ofDef uid d isPurchased)

/-- `Animal.place()`: YOUNG → GROWING, stamping `placeTime`;
refused in any other status. -/
def Animal.place (a : Animal) (now : ℚ) : Bool × Animal :=
  match a with
  | .mk i t g st _ bc sr ip ho ba off =>
    if st ≠ .young then (false, a)
    else (true, .mk i t g .growing (some now) bc sr ip ho ba off)

/-- `Animal.isMature()`: lazy transition — a GROWING animal whose elapsed
time reached its duration flips to MATURE as a side effect of the query. -/
def Animal.isMature (a : Animal) (now : ℚ) : Bool × Animal :=
  match a with
  | .mk i t g st p bc sr ip ho ba off =>
    if st ≠ .growing then (st = .mature, a)
    else
      let elapsed := getElapsedTime now p
      if g ≤ elapsed then (true, .mk i t g .mature p bc sr ip ho ba off)
      else (false, a)

/-- `Animal.getGrowthProgress()`: 0 while YOUNG, 100 once MATURE, else the
elapsed percentage capped at 100. -/
def Animal.getGrowthProgress (a : Animal) (now : ℚ) : ℚ :=
  if a.status = .young then 0
  else if a.status = .mature then 100
  else min 100 (calculatePercentage (getElapsedTime now a.placeTime) a.growthDuration)

/-- `Animal.canBreed()`: GROWING, not yet attempted, and at least 50%
through growth. -/
def Animal.canBreed (a : Animal) (now : ℚ) : Bool :=
  if a.status ≠ .growing then false
  else if a.breedingAttempted then false
  else decide (50 ≤ a.getGrowthProgress now)

/-- set `breedingAttempted = true` -/
def Animal.markAttempted : Animal → Animal
  | .mk i t g st p bc sr ip ho _ off => .mk i t g st p bc sr ip ho true off

/-- set `hasOffspring = true` -/
def Animal.setHasOffspring : Animal → Animal
  | .mk i t g st p bc sr ip _ ba off => .mk i t g st p bc sr ip true ba off

/-- `this.offspring.push(child)` -/
def Animal.pushOffspring : Animal → Animal → Animal
  | .mk i t g st p bc sr ip ho ba off, child => .mk i t g st p bc sr ip ho ba (off ++ [child])

/-- The result object of `Animal.attemptBreeding()`. -/
structure BreedResult where
  attempted : Bool
  bred : Bool
  survived : Bool
  offspring : Option Animal

/-- `Animal.attemptBreeding()` with the two `Math.random()` draws (`r1` for
breeding, `r2` for offspring survival) and the fresh offspring id made
explicit.  `none` models the exception thrown when the parent's type is
missing from the configuration (unreachable for well-formed animals). -/
def Animal.attemptBreeding (a : Animal) (uid : ℕ) (now r1 r2 : ℚ) :
    Option (BreedResult × Animal) :=
  if a.breedingAttempted then some (⟨false, false, false, none⟩, a)
  else if a.status ≠ .growing then some (⟨false, false, false, none⟩, a)
  else
    let a1 := a.markAttempted
    if ¬ randomBoolean a.breedingChance r1 then some (⟨true, false, false, none⟩, a1)
    else
      let a2 := a1.setHasOffspring
      match Animal.create a.type false uid with
      | none => none
      | some child =>
        if ¬ randomBoolean a.offspringSurvivalRate r2 then
          some (⟨true, true, false, none⟩, a2)
        else
          let placedChild := (child.place now).2
          some (⟨true, true, true, some placedChild⟩, a2.pushOffspring placedChild)

/-! ### GameState.js -/

inductive GameStatus where
  | playing | won | lost | paused
deriving Repr, DecidableEq

/-- `GameState.statistics`. -/
structure Statistics where
  totalCropsSold : ℕ
  totalAnimalsSold : ℕ
  totalCropsPurchased : ℕ
  totalAnimalsPurchased : ℕ
  totalMoneyEarned : ℚ
  totalMoneySpent : ℚ
  bestSingleSale : ℚ
  totalOffspringBorn : ℕ
  successfulBreedings : ℕ
deriving Repr, DecidableEq

def Statistics.init : Statistics := ⟨0, 0, 0, 0, 0, 0, 0, 0, 0⟩

/-- The central `GameState` (the Ledger): money, day, status, the forecast
window, the five inventory collections, statistics and milestones. -/
structure GameState where
  currentMoney : ℚ
  currentDay : ℤ
  goalMoney : ℚ
  gameStatus : GameStatus
  weatherForecast : List Weather
  seeds : List Crop
  crops : List Crop
  harvestedCrops : List Crop
  youngAnimals : List Animal
  animals : List Animal
  statistics : Statistics
  milestonesReached : List ℚ

/-- The `GameState` constructor, with the initial forecast's random samples
supplied by `vals`. -/
def GameState.init (vals : ℕ → ℚ) : GameState :=
  { currentMoney := STARTING_MONEY
    currentDay := 1
    goalMoney := GOAL_MONEY
    gameStatus := .playing
    weatherForecast := generateForecast WEATHER_FORECAST_DAYS 1 vals
    seeds := [], crops := [], harvestedCrops := []
    youngAnimals := [], animals := []
    statistics := Statistics.init
    milestonesReached := [] }

/-- `GameState._checkMilestones()`: walk `GAME_CONFIG.MILESTONES` in order,
recording every not-yet-reached threshold at or below the balance. -/
def GameState.checkMilestones (s : GameState) : GameState :=
  MILESTONES.foldl (fun st m =>
    if st.milestonesReached.contains m then st
    else if m ≤ st.currentMoney then
      { st with milestonesReached := st.milestonesReached ++ [m] }
    else st) s

/-- `GameState._checkWinCondition()`. -/
def GameState.checkWinCondition (s : GameState) : GameState :=
  if s.gameStatus ≠ .playing then s
  else if s.goalMoney ≤ s.currentMoney then { s with gameStatus := .won }
  else s

/-- `GameState._checkLoseCondition()`. -/
def GameState.checkLoseCondition (s : GameState) : GameState :=
  if s.gameStatus ≠ .playing then s
  else if TOTAL_DAYS < s.currentDay ∧ s.currentMoney < s.goalMoney then
    { s with gameStatus := .lost }
  else s

/-- `GameState.addMoney(amount)`: reject negatives, credit the balance,
update earned/best-sale statistics, then check milestones and the win
condition.  Returns the success flag together with the new state. -/
def GameState.addMoney (s : GameState) (amount : ℚ) : Bool × GameState :=
  if amount < 0 then (false, s)
  else
    let stats := s.statistics
    let stats' := { stats with
      totalMoneyEarned := stats.totalMoneyEarned + amount
      bestSingleSale := if stats.bestSingleSale < amount then amount else stats.bestSingleSale }
    let s1 := { s with currentMoney := s.currentMoney + amount, statistics := stats' }
    (true, (s1.checkMilestones).checkWinCondition)

/-- `GameState.deductMoney(amount)`: reject negatives and insufficient
funds (both leave the state untouched), else debit and update the spent
statistic. -/
def GameState.deductMoney (s : GameState) (amount : ℚ) : Bool × GameState :=
  if amount < 0 then (false, s)
  else if s.currentMoney < amount then (false, s)
  else
    let stats' := { s.statistics with
      totalMoneySpent := s.statistics.totalMoneySpent + amount }
    (true, { s with currentMoney := s.currentMoney - amount, statistics := stats' })

/-- `GameState.canAfford(amount)`. -/
def GameState.canAfford (s : GameState) (amount : ℚ) : Bool :=
  decide (amount ≤ s.currentMoney)

/-- `GameState._updateWeatherForecast()`: drop entries for past days, then
append one freshly sampled `Weather` for the day after the last kept entry.
`none` models the `TypeError` thrown when the filtered window is empty
(`this.weatherForecast[length-1]` is `undefined`). -/
def GameState.updateWeatherForecast (s : GameState) (v : ℚ) : Option GameState :=
  let kept := s.weatherForecast.filter (fun w => decide (s.currentDay ≤ w.day))
  match kept.getLast? with
  | none => none
  | some lastW =>
    some { s with weatherForecast := kept ++ [Weather.create (lastW.day + 1) v] }

/-- `GameState.advanceDay()` with the new forecast entry's random sample
made explicit.  A non-PLAYING status is refused without mutation; otherwise
the day is incremented, the forecast window refreshed and the lose
condition checked.  `none` models the forecast-update crash. -/
def GameState.advanceDay (s : GameState) (v : ℚ) : Option GameState :=
  if s.gameStatus ≠ .playing then some s
  else
    let s1 := { s with currentDay := s.currentDay + 1 }
    (s1.updateWeatherForecast v).map GameState.checkLoseCondition

/-- `GameState.plantCrop(cropId)`: locate the seed by id (first match),
remove it, `plant()` it and append it to the growing crops.  No capacity
check is performed. -/
def GameState.plantCrop (s : GameState) (cropId : ℕ) (now : ℚ) : Bool × GameState :=
  match s.seeds.find? (fun c => c.id == cropId) with
  | none => (false, s)
  | some c =>
    let seeds' := s.seeds.eraseP (fun c => c.id == cropId)
    let planted := (c.plant now).2
    (true, { s with seeds := seeds', crops := s.crops ++ [planted] })

/-- `GameState.harvestCrop(cropId)`: locate the crop, require `isMature()`
(the lazy query may flip it to MATURE), `harvest()` it and move it to the
harvested collection. -/
def GameState.harvestCrop (s : GameState) (cropId : ℕ) (now : ℚ) : Bool × GameState :=
  match s.crops.find? (fun c => c.id == cropId) with
  | none => (false, s)
  | some c =>
    let (ready, c1) := c.isMature now
    if ¬ ready then (false, s)
    else
      let harvested := (c1.harvest now).2
      (true, { s with crops := s.crops.eraseP (fun c => c.id == cropId),
                      harvestedCrops := s.harvestedCrops ++ [harvested] })

/-- `GameState.sellCrop(cropId)`: remove the harvested crop and bump the
sold-crops statistic; returns the removed crop (`none` = not found). -/
def GameState.sellCrop (s : GameState) (cropId : ℕ) : Option Crop × GameState :=
  match s.harvestedCrops.find? (fun c => c.id == cropId) with
  | none => (none, s)
  | some c =>
    let stats' := { s.statistics with totalCropsSold := s.statistics.totalCropsSold + 1 }
    (some c, { s with harvestedCrops := s.harvestedCrops.eraseP (fun c => c.id == cropId),
                      statistics := stats' })

/-- `GameState.placeAnimal(animalId)`: locate the young animal by id,
remove it, `place()` it and append it to the farm animals.  No capacity
check is performed. -/
def GameState.placeAnimal (s : GameState) (animalId : ℕ) (now : ℚ) : Bool × GameState :=
  match s.youngAnimals.find? (fun a => a.id == animalId) with
  | none => (false, s)
  | some a =>
    let young' := s.youngAnimals.eraseP (fun a => a.id == animalId)
    let placed := (a.place now).2
    (true, { s with youngAnimals := young', animals := s.animals ++ [placed] })

/-- `GameState.sellAnimal(animalId)`: locate the animal, require
`isMature()`, remove it and bump the sold-animals statistic; returns the
removed animal (`none` = not found or not mature). -/
def GameState.sellAnimal (s : GameState) (animalId : ℕ) (now : ℚ) : Option Animal × GameState :=
  match s.animals.find? (fun a => a.id == animalId) with
  | none => (none, s)
  | some a =>
    let (ready, a1) := a.isMature now
    if ¬ ready then (none, s)
    else
      let stats' := { s.statistics with totalAnimalsSold := s.statistics.totalAnimalsSold + 1 }
      (some a1, { s with animals := s.animals.eraseP (fun a => a.id == animalId),
                         statistics := stats' })

/-- `GameState.canPlantMoreCrops()`. -/
def GameState.canPlantMoreCrops (s : GameState) : Bool :=
  decide (s.crops.length < MAX_CROP_SLOTS)

/-- `GameState.canPlaceMoreAnimals()`. -/
def GameState.canPlaceMoreAnimals (s : GameState) : Bool :=
  decide (s.animals.length < MAX_ANIMAL_SLOTS)

/-- `GameState.isGameOver()`. -/
def GameState.isGameOver (s : GameState) : Bool :=
  s.gameStatus = .won ∨ s.gameStatus = .lost

/-- Iterated `advanceDay`, drawing the n-th new forecast sample from `f`. -/
def GameState.advanceN (s0 : GameState) (f : ℕ → ℚ) : ℕ → Option GameState
  | 0 => some s0
  | n + 1 => (GameState.advanceN s0 f n).bind (fun s => s.advanceDay (f n))

/-- The days carried by the forecast window. -/
def forecastDays (s : GameState) : List ℤ :=
  s.weatherForecast.map Weather.day

/-! ### Day-level image of the forecast-window update

`dayStep` is `_updateWeatherForecast` with each `Weather` replaced by its
`day`, used to compute the window shape independently of the sampled
weather values. -/

/-- Day-level image of `_updateWeatherForecast` for new current day `d`. -/
def dayStep (d : ℤ) (ds : List ℤ) : Option (List ℤ) :=
  let kept := ds.filter (fun x => decide (d ≤ x))
  match kept.getLast? with
  | none => none
  | some last => some (kept ++ [normalizeDay (last + 1)])

/-- The forecast-window day list after `n` day advances from the initial
seven-day window `[1..7]`. -/
def dayWindow : ℕ → Option (List ℤ)
  | 0 => some [1, 2, 3, 4, 5, 6, 7]
  | n + 1 => (dayWindow n).bind (dayStep ((n : ℤ) + 2))

/-! ### Concrete entities used by counterexamples and witnesses -/

/-- A wheat crop (`GAME_CONFIG.CROPS[0]`: cost 10, 2 min growth, price 18)
with a chosen id, status and plant time. -/
def sampleWheat (i : ℕ) (st : CropStatus) (pt : Option ℚ) : Crop :=
  ⟨i, "wheat", 10, 18, 120000, st, pt, none⟩

/-- A chicken (`GAME_CONFIG.ANIMALS[0]`: cost 40, 3 min growth, 35%
breeding, 75% survival) with a chosen id, status and place time. -/
def sampleChicken (i : ℕ) (st : AnimalStatus) (pt : Option ℚ) : Animal :=
  .mk i "chicken" 180000 st pt (35/100) (75/100) true false false []

/-- A Ledger whose growing-crop and placed-animal collections are both
exactly at capacity, with one unplanted seed and one unplaced animal. -/
def fullFarmState : GameState :=
  { GameState.init (fun _ => 1/2) with
      seeds := [sampleWheat 100 .seed none]
      crops := (List.range MAX_CROP_SLOTS).map (fun i => sampleWheat i .growing (some 0))
      youngAnimals := [sampleChicken 200 .young none]
      animals := (List.range MAX_ANIMAL_SLOTS).map (fun i => sampleChicken i .growing (some 0)) }

/-- A Ledger in terminal (Won) status holding one entity in each inventory
collection, used to instantiate the terminal-status theorems. -/
def terminalState : GameState :=
  { GameState.init (fun _ => 1/2) with
      gameStatus := .won
      seeds := [sampleWheat 1 .seed none]
      crops := [sampleWheat 2 .mature (some 0)]
      harvestedCrops := [sampleWheat 3 .harvested (some 0)]
      youngAnimals := [sampleChicken 4 .young none]
      animals := [sampleChicken 5 .mature (some 0)] }

/-! ## Helper lemmas -/

theorem milestoneFold_money (l : List ℚ) : ∀ s : GameState,
    (l.foldl (fun st m =>
      if st.milestonesReached.contains m then st
      else if m ≤ st.currentMoney then
        { st with milestonesReached := st.milestonesReached ++ [m] }
      else st) s).currentMoney = s.currentMoney := by
  induction l with
  | nil => intro s; rfl
  | cons m l ih =>
    intro s
    simp only [List.foldl_cons]
    rw [ih]
    split <;> [rfl; skip]
    split <;> rfl

theorem checkMilestones_money (s : GameState) :
    s.checkMilestones.currentMoney = s.currentMoney :=
  milestoneFold_money MILESTONES s

theorem checkWinCondition_money (s : GameState) :
    s.checkWinCondition.currentMoney = s.currentMoney := by
  unfold GameState.checkWinCondition
  split <;> [rfl; split <;> rfl]

theorem addMoney_money (s : GameState) (x : ℚ) (hx : 0 ≤ x) :
    (s.addMoney x).2.currentMoney = s.currentMoney + x := by
  unfold GameState.addMoney
  rw [if_neg (by simpa using hx)]
  simp only
  rw [checkWinCondition_money, checkMilestones_money]

theorem addMoney_fst (s : GameState) (x : ℚ) (hx : 0 ≤ x) :
    (s.addMoney x).1 = true := by
  unfold GameState.addMoney
  rw [if_neg (by simpa using hx)]

/-! ## Claim C4 -/

/-- Claim C4: for every valid non-negative amount `x` (and a balance that
is non-negative, as every reachable balance is), `addMoney x` immediately
followed by `deductMoney x` succeeds and returns `currentMoney` to its
prior value; and for every amount greater than the current balance,
`deductMoney` returns `false` and leaves the whole state unchanged. -/
theorem C4_ledger_conservation (s : GameState) (x : ℚ)
    (hm : 0 ≤ s.currentMoney) (hx : 0 ≤ x) :
    ((s.addMoney x).1 = true ∧
     ((s.addMoney x).2.deductMoney x).1 = true ∧
     ((s.addMoney x).2.deductMoney x).2.currentMoney = s.currentMoney) ∧
    (∀ y : ℚ, s.currentMoney < y → s.deductMoney y = (false, s)) := by
  constructor
  · refine ⟨addMoney_fst s x hx, ?_, ?_⟩
    · unfold GameState.deductMoney
      rw [if_neg (by simpa using hx),
        if_neg (by rw [addMoney_money s x hx]; simpa using hm)]
    · unfold GameState.deductMoney
      rw [if_neg (by simpa using hx),
        if_neg (by rw [addMoney_money s x hx]; simpa using hm)]
      simp [addMoney_money s x hx]
  · intro y hy
    unfold GameState.deductMoney
    by_cases h0 : y < 0
    · rw [if_pos h0]
    · rw [if_neg h0, if_pos hy]

/-- Witness for C4 at the initial state and amount 70. -/
theorem C4_witness :
    (0:ℚ) ≤ (GameState.init (fun _ => 1/2)).currentMoney ∧ (0:ℚ) ≤ 70 ∧
    (((GameState.init (fun _ => 1/2)).addMoney 70).1 = true ∧
     (((GameState.init (fun _ => 1/2)).addMoney 70).2.deductMoney 70).1 = true ∧
     (((GameState.init (fun _ => 1/2)).addMoney 70).2.deductMoney 70).2.currentMoney
        = (GameState.init (fun _ => 1/2)).currentMoney) ∧
    (GameState.init (fun _ => 1/2)).deductMoney 60 = (false, GameState.init (fun _ => 1/2)) :=
  ⟨by norm_num [GameState.init, STARTING_MONEY], by norm_num,
   (C4_ledger_conservation (GameState.init (fun _ => 1/2)) 70
      (by norm_num [GameState.init, STARTING_MONEY]) (by norm_num)).1,
   (C4_ledger_conservation (GameState.init (fun _ => 1/2)) 70
      (by norm_num [GameState.init, STARTING_MONEY]) (by norm_num)).2 60
      (by norm_num [GameState.init, STARTING_MONEY])⟩

/-! ## Claim C9 -/

/-- Claim C9: a `Weather` constructed with a day below 1 or above
`TOTAL_DAYS` gets `day = 1` (the out-of-range day is silently replaced),
even though `generateForecast` creates entries for days beyond
`TOTAL_DAYS` — e.g. a 7-day forecast starting at day 5 asks for day 11 and
ends with a day-1 entry. -/
theorem C9_day_normalization :
    (∀ (d : ℤ) (v : ℚ), d < 1 ∨ TOTAL_DAYS < d → (Weather.create d v).day = 1) ∧
    (∀ vals : ℕ → ℚ, (generateForecast 7 5 vals).map Weather.day
        = [5, 6, 7, 8, 9, 10, 1]) := by
  constructor
  · intro d v h
    show normalizeDay d = 1
    unfold normalizeDay
    rw [if_pos h]
  · intro vals
    rfl

/-- Witness for C9 at day 11 (one past `TOTAL_DAYS`). -/
theorem C9_witness :
    ((11:ℤ) < 1 ∨ TOTAL_DAYS < 11) ∧ (Weather.create 11 (1/2)).day = 1 ∧
    (generateForecast 7 5 (fun _ => 1/2)).map Weather.day = [5, 6, 7, 8, 9, 10, 1] :=
  ⟨by norm_num [TOTAL_DAYS],
   C9_day_normalization.1 11 (1/2) (by norm_num [TOTAL_DAYS]),
   C9_day_normalization.2 (fun _ => 1/2)⟩

/-! ## Breeding helper lemmas -/

theorem markAttempted_breedingAttempted (a : Animal) :
    a.markAttempted.breedingAttempted = true := by
  cases a; rfl

theorem setHasOffspring_breedingAttempted (a : Animal) :
    a.setHasOffspring.breedingAttempted = a.breedingAttempted := by
  cases a; rfl

theorem pushOffspring_breedingAttempted (a c : Animal) :
    (a.pushOffspring c).breedingAttempted = a.breedingAttempted := by
  cases a; rfl

theorem markAttempted_offspring (a : Animal) :
    a.markAttempted.offspring = a.offspring := by
  cases a; rfl

theorem setHasOffspring_offspring (a : Animal) :
    a.setHasOffspring.offspring = a.offspring := by
  cases a; rfl

/-- A second `attemptBreeding` call on an animal whose attempt is already
latched returns the all-false refusal without touching the animal. -/
theorem attemptBreeding_of_attempted (a : Animal) (uid : ℕ) (now r1 r2 : ℚ)
    (h : a.breedingAttempted = true) :
    a.attemptBreeding uid now r1 r2 = some (⟨false, false, false, none⟩, a) := by
  unfold Animal.attemptBreeding
  rw [if_pos h]

/-! ## Claim C5 -/

/-- Claim C5: `attemptBreeding` is one-shot.  An animal whose
`breedingAttempted` flag is set gets the `attempted:false` refusal (with
`bred:false`, `survived:false`, `offspring:null`) and is left unchanged;
and any real attempt (flag clear, status Growing) that returns sets
`attempted:true` in the result and latches `breedingAttempted`
permanently, whatever the random outcomes, so that any later call is
refused. -/
theorem C5_one_shot_breeding :
    (∀ (a : Animal) (uid : ℕ) (now r1 r2 : ℚ), a.breedingAttempted = true →
      a.attemptBreeding uid now r1 r2 = some (⟨false, false, false, none⟩, a)) ∧
    (∀ (a : Animal) (uid : ℕ) (now r1 r2 : ℚ) (res : BreedResult) (a' : Animal),
      a.breedingAttempted = false → a.status = .growing →
      a.attemptBreeding uid now r1 r2 = some (res, a') →
      res.attempted = true ∧ a'.breedingAttempted = true ∧
      ∀ (uid2 : ℕ) (now2 r3 r4 : ℚ),
        a'.attemptBreeding uid2 now2 r3 r4 = some (⟨false, false, false, none⟩, a')) := by
  constructor
  · exact fun a uid now r1 r2 h => attemptBreeding_of_attempted a uid now r1 r2 h
  · intro a uid now r1 r2 res a' h1 h2 hcall
    have latched : res.attempted = true ∧ a'.breedingAttempted = true := by
      by_cases hb : randomBoolean a.breedingChance r1
      · cases hfind : Animal.create a.type false uid with
        | none => simp [Animal.attemptBreeding, h1, h2, hb, hfind] at hcall
        | some child =>
          by_cases hs : randomBoolean a.offspringSurvivalRate r2
          · simp only [Animal.attemptBreeding, h1, h2, hb, hfind, hs,
              Bool.false_eq_true, if_false, ne_eq, not_true_eq_false, not_false_eq_true,
              if_true, Option.some.injEq, Prod.mk.injEq] at hcall
            obtain ⟨hres, ha'⟩ := hcall
            subst hres; subst ha'
            exact ⟨rfl, by rw [pushOffspring_breedingAttempted,
              setHasOffspring_breedingAttempted, markAttempted_breedingAttempted]⟩
          · simp only [Animal.attemptBreeding, h1, h2, hb, hfind, hs,
              Bool.false_eq_true, if_false, ne_eq, not_true_eq_false, not_false_eq_true,
              if_true, Option.some.injEq, Prod.mk.injEq] at hcall
            obtain ⟨hres, ha'⟩ := hcall
            subst hres; subst ha'
            exact ⟨rfl, by rw [setHasOffspring_breedingAttempted,
              markAttempted_breedingAttempted]⟩
      · simp only [Animal.attemptBreeding, h1, h2, hb,
          Bool.false_eq_true, if_false, ne_eq, not_true_eq_false, not_false_eq_true,
          if_true, Option.some.injEq, Prod.mk.injEq] at hcall
        obtain ⟨hres, ha'⟩ := hcall
        subst hres; subst ha'
        exact ⟨rfl, markAttempted_breedingAttempted a⟩
    exact ⟨latched.1, latched.2,
      fun uid2 now2 r3 r4 => attemptBreeding_of_attempted a' uid2 now2 r3 r4 latched.2⟩

/-- Witness for C5 on a growing chicken whose breeding roll fails: the
result is a real attempt, the flag latches and a later call is refused. -/
theorem C5_witness :
    (⟨true, false, false, none⟩ : BreedResult).attempted = true ∧
    (sampleChicken 0 .growing (some 0)).markAttempted.breedingAttempted = true ∧
    (sampleChicken 0 .growing (some 0)).markAttempted.attemptBreeding 1 0 0 0
      = some (⟨false, false, false, none⟩, (sampleChicken 0 .growing (some 0)).markAttempted) := by
  have hcall : (sampleChicken 0 .growing (some 0)).attemptBreeding 1 0 (1/2) (1/2)
      = some (⟨true, false, false, none⟩, (sampleChicken 0 .growing (some 0)).markAttempted) := by
    simp [Animal.attemptBreeding, sampleChicken, randomBoolean, Animal.breedingChance,
      Animal.breedingAttempted, Animal.status, Animal.markAttempted]
    norm_num
  have h := C5_one_shot_breeding.2 (sampleChicken 0 .growing (some 0)) 1 0 (1/2) (1/2)
    ⟨true, false, false, none⟩ (sampleChicken 0 .growing (some 0)).markAttempted rfl rfl hcall
  exact ⟨h.1, h.2.1, h.2.2 1 0 0 0⟩

/-- A real attempt whose breeding roll succeeds but whose survival roll
fails yields exactly `{attempted, bred, survived:false, offspring:null}`
and only sets the parent's two flags. -/
theorem attemptBreeding_bred_not_survived (a : Animal) (uid : ℕ) (now r1 r2 : ℚ)
    (d : AnimalDef)
    (h1 : a.breedingAttempted = false) (h2 : a.status = .growing)
    (hfind : ANIMALS.find? (fun d => d.id == a.type) = some d)
    (hb : randomBoolean a.breedingChance r1 = true)
    (hs : randomBoolean a.offspringSurvivalRate r2 = false) :
    a.attemptBreeding uid now r1 r2
      = some (⟨true, true, false, none⟩, a.markAttempted.setHasOffspring) := by
  have hc : Animal.create a.type false uid = some (Animal.ofDef uid d false) := by
    rw [Animal.create, hfind]; rfl
  simp [Animal.attemptBreeding, h1, h2, hb, hc, hs]

/-- Any real attempt (flag clear, status Growing, type known) returns a
result with `attempted = true` and latches the flag. -/
theorem attemptBreeding_total (a : Animal) (uid : ℕ) (now r1 r2 : ℚ)
    (h1 : a.breedingAttempted = false) (h2 : a.status = .growing)
    (hdef : (ANIMALS.find? (fun d => d.id == a.type)).isSome) :
    ∃ res a', a.attemptBreeding uid now r1 r2 = some (res, a') ∧
      res.attempted = true ∧ a'.breedingAttempted = true := by
  by_cases hb : randomBoolean a.breedingChance r1
  · obtain ⟨d, hfind⟩ := Option.isSome_iff_exists.mp hdef
    have hc : Animal.create a.type false uid = some (Animal.ofDef uid d false) := by
      rw [Animal.create, hfind]; rfl
    by_cases hs : randomBoolean a.offspringSurvivalRate r2
    · refine ⟨⟨true, true, true, some ((Animal.ofDef uid d false).place now).2⟩,
        a.markAttempted.setHasOffspring.pushOffspring ((Animal.ofDef uid d false).place now).2,
        ?_, rfl, ?_⟩
      · simp [Animal.attemptBreeding, h1, h2, hb, hc, hs]
      · rw [pushOffspring_breedingAttempted, setHasOffspring_breedingAttempted,
          markAttempted_breedingAttempted]
    · exact ⟨⟨true, true, false, none⟩, a.markAttempted.setHasOffspring,
        attemptBreeding_bred_not_survived a uid now r1 r2 d h1 h2 hfind hb
          (by simpa using hs),
        rfl, by rw [setHasOffspring_breedingAttempted, markAttempted_breedingAttempted]⟩
  · refine ⟨⟨true, false, false, none⟩, a.markAttempted, ?_, rfl,
      markAttempted_breedingAttempted a⟩
    simp [Animal.attemptBreeding, h1, h2, hb]

/-! ## Claim C6 -/

/-- Claim C6: when the breeding trial succeeds but the independent
offspring-survival trial fails, `attemptBreeding` returns
`{attempted:true, bred:true, survived:false, offspring:null}` and the
created offspring is never appended to the parent's offspring list; in
particular with `breedingChance = 1` and `offspringSurvivalRate = 0`
(random draws lying in `[0,1)` as `Math.random()` does), `bred` is always
true, `survived` is always false and the offspring list never grows. -/
theorem C6_survival_independence (a : Animal) (uid : ℕ) (now r1 r2 : ℚ)
    (h1 : a.breedingAttempted = false) (h2 : a.status = .growing)
    (hdef : (ANIMALS.find? (fun d => d.id == a.type)).isSome) :
    (randomBoolean a.breedingChance r1 = true →
     randomBoolean a.offspringSurvivalRate r2 = false →
     ∃ a', a.attemptBreeding uid now r1 r2 = some (⟨true, true, false, none⟩, a') ∧
       a'.offspring = a.offspring) ∧
    (a.breedingChance = 1 → a.offspringSurvivalRate = 0 →
     0 ≤ r1 → r1 < 1 → 0 ≤ r2 →
     ∃ a', a.attemptBreeding uid now r1 r2 = some (⟨true, true, false, none⟩, a') ∧
       a'.offspring = a.offspring) := by
  obtain ⟨d, hfind⟩ := Option.isSome_iff_exists.mp hdef
  have main : randomBoolean a.breedingChance r1 = true →
      randomBoolean a.offspringSurvivalRate r2 = false →
      ∃ a', a.attemptBreeding uid now r1 r2 = some (⟨true, true, false, none⟩, a') ∧
        a'.offspring = a.offspring := by
    intro hb hs
    exact ⟨a.markAttempted.setHasOffspring,
      attemptBreeding_bred_not_survived a uid now r1 r2 d h1 h2 hfind hb hs,
      by rw [setHasOffspring_offspring, markAttempted_offspring]⟩
  refine ⟨main, fun hbc hsr hr1 hr1' hr2 => main ?_ ?_⟩
  · rw [randomBoolean, hbc]
    simp [hr1']
  · rw [randomBoolean, hsr]
    simp [not_lt.mpr hr2]

/-- Witness for C6: a growing chicken-typed animal with certain breeding
and zero offspring survival. -/
theorem C6_witness :
    ∃ a', (Animal.mk 0 "chicken" 180000 .growing (some 0) 1 0 true false false
            []).attemptBreeding 1 0 (1/2) (1/2) = some (⟨true, true, false, none⟩, a') ∧
      a'.offspring = (Animal.mk 0 "chicken" 180000 .growing (some 0) 1 0 true false false
            []).offspring :=
  (C6_survival_independence
    (.mk 0 "chicken" 180000 .growing (some 0) 1 0 true false false []) 1 0 (1/2) (1/2)
    rfl rfl (by rw [Option.isSome_iff_exists]; exact ⟨_, by rfl⟩)).2
    rfl rfl (by norm_num) (by norm_num) (by norm_num)

/-! ## Claim C10 -/

/-- Claim C10: the 50% progress gate lives only in `canBreed`;
`attemptBreeding` itself checks only `breedingAttempted` and the status,
so a Growing, not-yet-attempted animal below 50% progress (for which
`canBreed` is false) still gets a real attempt that latches the flag. -/
theorem C10_no_progress_gate (a : Animal) (uid : ℕ) (now r1 r2 : ℚ)
    (h1 : a.breedingAttempted = false) (h2 : a.status = .growing)
    (hprog : a.getGrowthProgress now < 50)
    (hdef : (ANIMALS.find? (fun d => d.id == a.type)).isSome) :
    a.canBreed now = false ∧
    ∃ res a', a.attemptBreeding uid now r1 r2 = some (res, a') ∧
      res.attempted = true ∧ a'.breedingAttempted = true := by
  constructor
  · simp only [Animal.canBreed, h1, h2]
    simp [not_le.mpr hprog]
  · exact attemptBreeding_total a uid now r1 r2 h1 h2 hdef

/-- Witness for C10: a chicken just placed (progress 0 < 50). -/
theorem C10_witness :
    (sampleChicken 0 .growing (some 0)).canBreed 0 = false ∧
    ∃ res a', (sampleChicken 0 .growing (some 0)).attemptBreeding 1 0 (1/2) (1/2)
        = some (res, a') ∧ res.attempted = true ∧ a'.breedingAttempted = true :=
  C10_no_progress_gate (sampleChicken 0 .growing (some 0)) 1 0 (1/2) (1/2)
    rfl rfl
    (by
      simp [sampleChicken, Animal.getGrowthProgress, Animal.status, Animal.placeTime,
        Animal.growthDuration, getElapsedTime, calculatePercentage, clamp]
      norm_num)
    (by rw [Option.isSome_iff_exists]; exact ⟨_, by rfl⟩)

/-! ## Progress helper lemmas -/

theorem calculatePercentage_le_100 (c t : ℚ) : calculatePercentage c t ≤ 100 := by
  unfold calculatePercentage clamp
  split
  · norm_num
  · split
    · exact le_refl _
    · exact min_le_right _ _

theorem calculatePercentage_mono (t : ℚ) (ht : 0 < t) {c1 c2 : ℚ} (h : c1 ≤ c2) :
    calculatePercentage c1 t ≤ calculatePercentage c2 t := by
  unfold calculatePercentage
  rw [if_neg ht.ne', if_neg ht.ne']
  by_cases h2 : t ≤ c2
  · rw [if_pos h2]
    by_cases h1 : t ≤ c1
    · rw [if_pos h1]
    · rw [if_neg h1]
      exact min_le_right _ _
  · have h1 : ¬ t ≤ c1 := fun hh => h2 (hh.trans h)
    rw [if_neg h1, if_neg h2]
    unfold clamp
    have hdiv : c1 / t * 100 ≤ c2 / t * 100 := by
      have := (div_le_div_iff_of_pos_right ht).mpr h
      nlinarith
    exact min_le_min (max_le_max hdiv le_rfl) le_rfl

theorem cropGrowthProgress_growing (c : Crop) (now p : ℚ)
    (hst : c.status = .growing) (hpt : c.plantTime = some p) (hp : 0 ≤ p) :
    c.getGrowthProgress now = min 100 (calculatePercentage (now - p) c.growthDuration) := by
  simp [Crop.getGrowthProgress, hst, hpt, getElapsedTime, not_lt.mpr hp]

theorem animalGrowthProgress_growing (a : Animal) (now p : ℚ)
    (hst : a.status = .growing) (hpt : a.placeTime = some p) (hp : 0 ≤ p) :
    a.getGrowthProgress now = min 100 (calculatePercentage (now - p) a.growthDuration) := by
  simp [Animal.getGrowthProgress, hst, hpt, getElapsedTime, not_lt.mpr hp]

/-! ## Claim C8 -/

/-- Claim C8: for every Growing entity (Crop or Animal) with its anchor
timestamp set, `getGrowthProgress` is monotone in the sampling time, and
equals exactly 100 (never overshooting) as soon as the elapsed time
reaches `growthDuration`; entities already past maturity report 100. -/
theorem C8_monotone_progress :
    (∀ (c : Crop) (p t1 t2 : ℚ), c.status = .growing → 0 < c.growthDuration →
      c.plantTime = some p → 0 ≤ p → t1 ≤ t2 →
      c.getGrowthProgress t1 ≤ c.getGrowthProgress t2) ∧
    (∀ (c : Crop) (p t : ℚ), c.status = .growing → 0 < c.growthDuration →
      c.plantTime = some p → 0 ≤ p → c.growthDuration ≤ t - p →
      c.getGrowthProgress t = 100) ∧
    (∀ (c : Crop) (t : ℚ), c.status = .mature ∨ c.status = .harvested →
      c.getGrowthProgress t = 100) ∧
    (∀ (a : Animal) (p t1 t2 : ℚ), a.status = .growing → 0 < a.growthDuration →
      a.placeTime = some p → 0 ≤ p → t1 ≤ t2 →
      a.getGrowthProgress t1 ≤ a.getGrowthProgress t2) ∧
    (∀ (a : Animal) (p t : ℚ), a.status = .growing → 0 < a.growthDuration →
      a.placeTime = some p → 0 ≤ p → a.growthDuration ≤ t - p →
      a.getGrowthProgress t = 100) ∧
    (∀ (a : Animal) (t : ℚ), a.status = .mature → a.getGrowthProgress t = 100) := by
  refine ⟨?_, ?_, ?_, ?_, ?_, ?_⟩
  · intro c p t1 t2 hst ht hpt hp h12
    rw [cropGrowthProgress_growing c t1 p hst hpt hp,
      cropGrowthProgress_growing c t2 p hst hpt hp]
    exact min_le_min le_rfl (calculatePercentage_mono c.growthDuration ht (by linarith))
  · intro c p t hst ht hpt hp helap
    rw [cropGrowthProgress_growing c t p hst hpt hp]
    unfold calculatePercentage
    rw [if_neg ht.ne', if_pos helap]
    norm_num
  · intro c t hst
    rcases hst with h | h <;> simp [Crop.getGrowthProgress, h]
  · intro a p t1 t2 hst ht hpt hp h12
    rw [animalGrowthProgress_growing a t1 p hst hpt hp,
      animalGrowthProgress_growing a t2 p hst hpt hp]
    exact min_le_min le_rfl (calculatePercentage_mono a.growthDuration ht (by linarith))
  · intro a p t hst ht hpt hp helap
    rw [animalGrowthProgress_growing a t p hst hpt hp]
    unfold calculatePercentage
    rw [if_neg ht.ne', if_pos helap]
    norm_num
  · intro a t hst
    simp [Animal.getGrowthProgress, hst]

/-- Witness for C8 on a planted wheat crop and a placed chicken. -/
theorem C8_witness :
    ((sampleWheat 0 .growing (some 0)).getGrowthProgress 30000
        ≤ (sampleWheat 0 .growing (some 0)).getGrowthProgress 60000) ∧
    (sampleWheat 0 .growing (some 0)).getGrowthProgress 120000 = 100 ∧
    (sampleWheat 1 .harvested (some 0)).getGrowthProgress 0 = 100 ∧
    ((sampleChicken 0 .growing (some 0)).getGrowthProgress 30000
        ≤ (sampleChicken 0 .growing (some 0)).getGrowthProgress 60000) ∧
    (sampleChicken 0 .growing (some 0)).getGrowthProgress 180000 = 100 ∧
    (sampleChicken 1 .mature (some 0)).getGrowthProgress 0 = 100 :=
  ⟨C8_monotone_progress.1 (sampleWheat 0 .growing (some 0)) 0 30000 60000
      rfl (by norm_num [sampleWheat]) rfl le_rfl (by norm_num),
   C8_monotone_progress.2.1 (sampleWheat 0 .growing (some 0)) 0 120000
      rfl (by norm_num [sampleWheat]) rfl le_rfl (by norm_num [sampleWheat]),
   C8_monotone_progress.2.2.1 (sampleWheat 1 .harvested (some 0)) 0 (Or.inr rfl),
   C8_monotone_progress.2.2.2.1 (sampleChicken 0 .growing (some 0)) 0 30000 60000
      rfl (by norm_num [sampleChicken, Animal.growthDuration]) rfl le_rfl (by norm_num),
   C8_monotone_progress.2.2.2.2.1 (sampleChicken 0 .growing (some 0)) 0 180000
      rfl (by norm_num [sampleChicken, Animal.growthDuration]) rfl le_rfl
      (by norm_num [sampleChicken, Animal.growthDuration]),
   C8_monotone_progress.2.2.2.2.2 (sampleChicken 1 .mature (some 0)) 0 rfl⟩

/-! ## Claim C7 -/

/-- Counterexample to claim C7 as stated: the rule table's ranges have
gaps between the two-decimal bounds; the value 0.695 lies in the valid
interval [0.10, 1.00] but in the gap between the 0.60–0.69 and 0.70–0.79
rules, so it gets the fallback multiplier 1.0, strictly below the 1.2 of
the larger value 0.70 — monotone non-increase fails on the full
interval. -/
theorem C7_counterexample :
    WEATHER_MIN ≤ (695:ℚ)/1000 ∧ (695:ℚ)/1000 < 7/10 ∧ (7:ℚ)/10 ≤ WEATHER_MAX ∧
    calculateDemandIndex ((695:ℚ)/1000) = 1 ∧
    calculateDemandIndex ((7:ℚ)/10) = 6/5 ∧
    ¬ calculateDemandIndex ((7:ℚ)/10) ≤ calculateDemandIndex ((695:ℚ)/1000) := by
  with_unfolding_all decide

set_option maxRecDepth 10000 in
/-- Claim C7 amended: on the two-decimal grid — the only weather values
the game ever produces — the demand mapping is monotonically
non-increasing: for hundredth-values `k1/100 < k2/100` in [0.10, 1.00],
`calculateDemandIndex (k2/100) ≤ calculateDemandIndex (k1/100)`. -/
theorem C7_demand_antitone_on_grid (k1 k2 : ℕ)
    (h1 : 10 ≤ k1) (h12 : k1 < k2) (h2 : k2 ≤ 100) :
    calculateDemandIndex (mkRat k2 100) ≤ calculateDemandIndex (mkRat k1 100) := by
  have key : ∀ k1 : ℕ, k1 < 101 → ∀ k2 : ℕ, k2 < 101 → 10 ≤ k1 → k1 < k2 → k2 ≤ 100 →
      calculateDemandIndex (mkRat k2 100) ≤ calculateDemandIndex (mkRat k1 100) := by
    with_unfolding_all decide
  exact key k1 (by omega) k2 (by omega) h1 h12 h2

/-- Witness for C7's amended claim at 0.40 < 0.90. -/
theorem C7_witness :
    (10 ≤ 40 ∧ 40 < 90 ∧ 90 ≤ 100) ∧
    calculateDemandIndex (mkRat 90 100) ≤ calculateDemandIndex (mkRat 40 100) :=
  ⟨by omega, C7_demand_antitone_on_grid 40 90 (by omega) (by omega) (by omega)⟩

/-! ## Claim C3 -/

/-- Counterexample to claim C3: with the growing-crops collection already
at `MAX_CROP_SLOTS` and the placed-animals collection at
`MAX_ANIMAL_SLOTS`, `plantCrop` and `placeAnimal` still succeed and push
the collections past their maxima — the Ledger's mutators perform no
capacity check. -/
theorem C3_counterexample :
    (fullFarmState.crops.length = MAX_CROP_SLOTS ∧
     fullFarmState.canPlantMoreCrops = false ∧
     (fullFarmState.plantCrop 100 0).1 = true ∧
     (fullFarmState.plantCrop 100 0).2.crops.length = MAX_CROP_SLOTS + 1) ∧
    (fullFarmState.animals.length = MAX_ANIMAL_SLOTS ∧
     fullFarmState.canPlaceMoreAnimals = false ∧
     (fullFarmState.placeAnimal 200 0).1 = true ∧
     (fullFarmState.placeAnimal 200 0).2.animals.length = MAX_ANIMAL_SLOTS + 1) := by
  with_unfolding_all decide

/-- Claim C3 amended: `plantCrop` and `placeAnimal` check only that the
id is present in the seed/young stock — they never check capacity, so a
call at full capacity still succeeds and grows the collection beyond its
maximum; capacity is exposed only through the separate
`canPlantMoreCrops` / `canPlaceMoreAnimals` predicates that callers are
expected to consult. -/
theorem C3_no_capacity_check (s : GameState) (cid aid : ℕ) (now : ℚ) :
    ((s.seeds.find? (fun c => c.id == cid)).isSome →
      (s.plantCrop cid now).1 = true ∧
      (s.plantCrop cid now).2.crops.length = s.crops.length + 1) ∧
    (s.seeds.find? (fun c => c.id == cid) = none → s.plantCrop cid now = (false, s)) ∧
    ((s.youngAnimals.find? (fun a => a.id == aid)).isSome →
      (s.placeAnimal aid now).1 = true ∧
      (s.placeAnimal aid now).2.animals.length = s.animals.length + 1) ∧
    (s.youngAnimals.find? (fun a => a.id == aid) = none → s.placeAnimal aid now = (false, s)) ∧
    s.canPlantMoreCrops = decide (s.crops.length < MAX_CROP_SLOTS) ∧
    s.canPlaceMoreAnimals = decide (s.animals.length < MAX_ANIMAL_SLOTS) := by
  refine ⟨?_, ?_, ?_, ?_, rfl, rfl⟩
  · intro hfind
    obtain ⟨c, hc⟩ := Option.isSome_iff_exists.mp hfind
    simp [GameState.plantCrop, hc]
  · intro hfind
    simp [GameState.plantCrop, hfind]
  · intro hfind
    obtain ⟨a, ha⟩ := Option.isSome_iff_exists.mp hfind
    simp [GameState.placeAnimal, ha]
  · intro hfind
    simp [GameState.placeAnimal, hfind]

/-- Witness for C3's amended claim on the at-capacity farm state. -/
theorem C3_witness :
    ((fullFarmState.plantCrop 100 0).1 = true ∧
     (fullFarmState.plantCrop 100 0).2.crops.length = fullFarmState.crops.length + 1) ∧
    ((fullFarmState.placeAnimal 200 0).1 = true ∧
     (fullFarmState.placeAnimal 200 0).2.animals.length = fullFarmState.animals.length + 1) :=
  ⟨(C3_no_capacity_check fullFarmState 100 200 0).1 (by with_unfolding_all decide),
   (C3_no_capacity_check fullFarmState 100 200 0).2.2.1 (by with_unfolding_all decide)⟩

/-! ## Claim C1 -/

theorem cropIsMature_of_mature (c : Crop) (now : ℚ) (h : c.status = .mature) :
    c.isMature now = (true, c) := by
  simp [Crop.isMature, h]

theorem animalIsMature_of_mature (a : Animal) (now : ℚ) (h : a.status = .mature) :
    a.isMature now = (true, a) := by
  cases a with
  | mk i t g st p bc sr ip ho ba off =>
    simp only [Animal.status] at h
    subst h
    simp [Animal.isMature]

theorem milestoneFold_status (l : List ℚ) : ∀ s : GameState,
    (l.foldl (fun st m =>
      if st.milestonesReached.contains m then st
      else if m ≤ st.currentMoney then
        { st with milestonesReached := st.milestonesReached ++ [m] }
      else st) s).gameStatus = s.gameStatus := by
  induction l with
  | nil => intro s; rfl
  | cons m l ih =>
    intro s
    simp only [List.foldl_cons]
    rw [ih]
    split <;> [rfl; skip]
    split <;> rfl

theorem milestoneFold_goal (l : List ℚ) : ∀ s : GameState,
    (l.foldl (fun st m =>
      if st.milestonesReached.contains m then st
      else if m ≤ st.currentMoney then
        { st with milestonesReached := st.milestonesReached ++ [m] }
      else st) s).goalMoney = s.goalMoney := by
  induction l with
  | nil => intro s; rfl
  | cons m l ih =>
    intro s
    simp only [List.foldl_cons]
    rw [ih]
    split <;> [rfl; skip]
    split <;> rfl

/-- `addMoney` flips a Playing status to Won as soon as the credited
balance reaches the goal. -/
theorem addMoney_status_won (s : GameState) (x : ℚ) (hx : 0 ≤ x)
    (hstat : s.gameStatus = .playing) (hgoal : s.goalMoney ≤ s.currentMoney + x) :
    (s.addMoney x).2.gameStatus = .won := by
  unfold GameState.addMoney
  rw [if_neg (by simpa using hx)]
  simp only
  unfold GameState.checkWinCondition
  rw [if_neg (by
      rw [GameState.checkMilestones, milestoneFold_status]
      simpa using hstat),
    if_pos (by rw [GameState.checkMilestones, milestoneFold_goal, milestoneFold_money]; exact hgoal)]

/-- Counterexample to claim C1: a Ledger that has just reached the goal
(status Won) still accepts `addMoney` — the call returns success and
mutates `currentMoney` from 5050 to 5060 instead of being refused. -/
theorem C1_counterexample :
    ((GameState.init (fun _ => 1/2)).addMoney 5000).2.gameStatus = .won ∧
    ((GameState.init (fun _ => 1/2)).addMoney 5000).2.currentMoney = 5050 ∧
    (((GameState.init (fun _ => 1/2)).addMoney 5000).2.addMoney 10).1 = true ∧
    (((GameState.init (fun _ => 1/2)).addMoney 5000).2.addMoney 10).2.currentMoney = 5060 := by
  have hmoney : ((GameState.init (fun _ => 1/2)).addMoney 5000).2.currentMoney = 5050 := by
    rw [addMoney_money _ _ (by norm_num)]
    norm_num [GameState.init, STARTING_MONEY]
  refine ⟨?_, hmoney, addMoney_fst _ _ (by norm_num), ?_⟩
  · exact addMoney_status_won _ _ (by norm_num) rfl
      (by norm_num [GameState.init, STARTING_MONEY, GOAL_MONEY])
  · rw [addMoney_money _ _ (by norm_num), hmoney]
    norm_num

/-- Claim C1 amended: once the status is Won or Lost only `advanceDay`
refuses (returning with no mutation); `addMoney`, `deductMoney`,
`plantCrop`, `harvestCrop`, `sellCrop`, `placeAnimal` and `sellAnimal`
perform no terminal-status check and still succeed and mutate the Ledger
whenever their own preconditions (validity, funds, presence, maturity)
hold. -/
theorem C1_terminal_only_blocks_advanceDay (s : GameState)
    (hterm : s.gameStatus ≠ .playing) :
    (∀ v : ℚ, s.advanceDay v = some s) ∧
    (∀ x : ℚ, 0 ≤ x → (s.addMoney x).1 = true ∧
      (s.addMoney x).2.currentMoney = s.currentMoney + x) ∧
    (∀ x : ℚ, 0 ≤ x → x ≤ s.currentMoney → (s.deductMoney x).1 = true ∧
      (s.deductMoney x).2.currentMoney = s.currentMoney - x) ∧
    (∀ (cid : ℕ) (now : ℚ), (s.seeds.find? (fun c => c.id == cid)).isSome →
      (s.plantCrop cid now).1 = true ∧
      (s.plantCrop cid now).2.crops.length = s.crops.length + 1) ∧
    (∀ (cid : ℕ) (now : ℚ) (c : Crop), s.crops.find? (fun c => c.id == cid) = some c →
      c.status = .mature → (s.harvestCrop cid now).1 = true ∧
      (s.harvestCrop cid now).2.harvestedCrops.length = s.harvestedCrops.length + 1) ∧
    (∀ cid : ℕ, (s.harvestedCrops.find? (fun c => c.id == cid)).isSome →
      (s.sellCrop cid).1.isSome = true ∧
      (s.sellCrop cid).2.statistics.totalCropsSold = s.statistics.totalCropsSold + 1) ∧
    (∀ (aid : ℕ) (now : ℚ), (s.youngAnimals.find? (fun a => a.id == aid)).isSome →
      (s.placeAnimal aid now).1 = true ∧
      (s.placeAnimal aid now).2.animals.length = s.animals.length + 1) ∧
    (∀ (aid : ℕ) (now : ℚ) (a : Animal), s.animals.find? (fun a => a.id == aid) = some a →
      a.status = .mature → (s.sellAnimal aid now).1.isSome = true ∧
      (s.sellAnimal aid now).2.statistics.totalAnimalsSold
        = s.statistics.totalAnimalsSold + 1) := by
  refine ⟨?_, ?_, ?_, ?_, ?_, ?_, ?_, ?_⟩
  · intro v
    simp [GameState.advanceDay, hterm]
  · intro x hx
    exact ⟨addMoney_fst s x hx, addMoney_money s x hx⟩
  · intro x hx hxm
    unfold GameState.deductMoney
    rw [if_neg (by simpa using hx), if_neg (by simpa using hxm)]
    exact ⟨rfl, rfl⟩
  · intro cid now hfind
    obtain ⟨c, hc⟩ := Option.isSome_iff_exists.mp hfind
    simp [GameState.plantCrop, hc]
  · intro cid now c hfind hmature
    simp only [GameState.harvestCrop, hfind]
    rw [cropIsMature_of_mature c now hmature]
    simp
  · intro cid hfind
    obtain ⟨c, hc⟩ := Option.isSome_iff_exists.mp hfind
    simp [GameState.sellCrop, hc]
  · intro aid now hfind
    obtain ⟨a, ha⟩ := Option.isSome_iff_exists.mp hfind
    simp [GameState.placeAnimal, ha]
  · intro aid now a hfind hmature
    simp only [GameState.sellAnimal, hfind]
    rw [animalIsMature_of_mature a now hmature]
    simp

/-- Witness for C1's amended claim on a concrete Won Ledger holding one
entity of each kind. -/
theorem C1_witness :
    (∀ v : ℚ, terminalState.advanceDay v = some terminalState) ∧
    ((terminalState.addMoney 10).1 = true ∧
     (terminalState.addMoney 10).2.currentMoney = terminalState.currentMoney + 10) ∧
    ((terminalState.plantCrop 1 0).1 = true ∧
     (terminalState.plantCrop 1 0).2.crops.length = terminalState.crops.length + 1) ∧
    ((terminalState.sellCrop 3).1.isSome = true ∧
     (terminalState.sellCrop 3).2.statistics.totalCropsSold
        = terminalState.statistics.totalCropsSold + 1) :=
  ⟨(C1_terminal_only_blocks_advanceDay terminalState (by with_unfolding_all decide)).1,
   (C1_terminal_only_blocks_advanceDay terminalState (by with_unfolding_all decide)).2.1
      10 (by norm_num),
   (C1_terminal_only_blocks_advanceDay terminalState
      (by with_unfolding_all decide)).2.2.2.1 1 0 (by with_unfolding_all decide),
   (C1_terminal_only_blocks_advanceDay terminalState
      (by with_unfolding_all decide)).2.2.2.2.2.1 3 (by with_unfolding_all decide)⟩

/-! ## Claim C2: forecast-window lemmas -/

theorem forecastDays_map_filter (d : ℤ) (ws : List Weather) :
    (ws.filter (fun w => decide (d ≤ w.day))).map Weather.day
      = (ws.map Weather.day).filter (fun x => decide (d ≤ x)) := by
  induction ws with
  | nil => rfl
  | cons w ws ih =>
    by_cases h : d ≤ w.day
    · simp [List.filter_cons, h, ih]
    · simp [List.filter_cons, h, ih]

theorem getLast?_map_day (ws : List Weather) :
    (ws.map Weather.day).getLast? = ws.getLast?.map Weather.day := by
  induction ws with
  | nil => rfl
  | cons w ws ih =>
    cases ws with
    | nil => rfl
    | cons w2 ws2 =>
      simp only [List.map_cons, List.getLast?_cons_cons]
      simpa using ih

theorem checkLose_forecast (s : GameState) :
    s.checkLoseCondition.weatherForecast = s.weatherForecast := by
  unfold GameState.checkLoseCondition
  split
  · rfl
  · split <;> rfl

theorem checkLose_day (s : GameState) :
    s.checkLoseCondition.currentDay = s.currentDay := by
  unfold GameState.checkLoseCondition
  split
  · rfl
  · split <;> rfl

theorem checkLose_status_of_day_le (s : GameState) (h : s.currentDay ≤ TOTAL_DAYS)
    (hs : s.gameStatus = .playing) : s.checkLoseCondition.gameStatus = .playing := by
  unfold GameState.checkLoseCondition
  rw [if_neg (by simp [hs]), if_neg (fun hc => absurd hc.1 (not_lt.mpr h))]
  exact hs

/-- The forecast-day list evolves by `dayStep` on each (non-refused) day
advance. -/
theorem advanceDay_forecastDays (s : GameState) (v : ℚ) (h : s.gameStatus = .playing) :
    (s.advanceDay v).map forecastDays = dayStep (s.currentDay + 1) (forecastDays s) := by
  have hfilter := forecastDays_map_filter (s.currentDay + 1) s.weatherForecast
  have hlast : ((forecastDays s).filter (fun x => decide (s.currentDay + 1 ≤ x))).getLast?
      = (s.weatherForecast.filter (fun w => decide (s.currentDay + 1 ≤ w.day))).getLast?.map
          Weather.day := by
    rw [forecastDays, ← hfilter, getLast?_map_day]
  unfold GameState.advanceDay GameState.updateWeatherForecast dayStep
  rw [if_neg (by simp [h])]
  simp only
  cases hl : (s.weatherForecast.filter (fun w => decide (s.currentDay + 1 ≤ w.day))).getLast? with
  | none =>
    rw [hl] at hlast
    rw [hlast]
    simp
  | some lastW =>
    rw [hl] at hlast
    rw [hlast]
    simp only [Option.map_some', Option.map_none']
    rw [forecastDays, checkLose_forecast]
    simp only [List.map_append, List.map_cons, List.map_nil]
    rw [forecastDays, hfilter]
    rfl

/-- Data carried by a successful `advanceDay`. -/
theorem advanceDay_some_fields (s s' : GameState) (v : ℚ) (h : s.gameStatus = .playing)
    (hs : s.advanceDay v = some s') :
    s'.currentDay = s.currentDay + 1 ∧
    (s.currentDay + 1 ≤ TOTAL_DAYS → s'.gameStatus = .playing) := by
  unfold GameState.advanceDay GameState.updateWeatherForecast at hs
  rw [if_neg (by simp [h])] at hs
  simp only at hs
  cases hl : (s.weatherForecast.filter (fun w => decide (s.currentDay + 1 ≤ w.day))).getLast? with
  | none => rw [hl] at hs; exact absurd hs (by simp)
  | some lastW =>
    rw [hl] at hs
    simp only [Option.map_some', Option.some.injEq] at hs
    subst hs
    constructor
    · rw [checkLose_day]
    · intro hday
      exact checkLose_status_of_day_le _ (by simpa using hday) h

theorem forecastDays_init (vals : ℕ → ℚ) :
    forecastDays (GameState.init vals) = [1, 2, 3, 4, 5, 6, 7] := rfl

theorem dayWindow_isSome : ∀ n : ℕ, n < 10 → (dayWindow n).isSome := by decide

theorem dayWindow_shape : ∀ n : ℕ, n < 10 →
    ((dayWindow n).getD []).head? = some ((n : ℤ) + 1) ∧
    ((dayWindow n).getD []).length = min 7 (11 - n) := by decide

/-- Invariant along iterated day advances from the initial state: for
`n ≤ 9` the run has not crashed, the day counter is `n + 1`, the game is
still Playing, and the forecast-day list equals the day-level window. -/
theorem advanceN_inv (g f : ℕ → ℚ) : ∀ n : ℕ, n ≤ 9 →
    ∃ s, (GameState.init g).advanceN f n = some s ∧
      s.currentDay = (n : ℤ) + 1 ∧ s.gameStatus = .playing ∧
      dayWindow n = some (forecastDays s) := by
  intro n
  induction n with
  | zero =>
    intro _
    exact ⟨GameState.init g, rfl, rfl, rfl, by rw [forecastDays_init]; rfl⟩
  | succ n ih =>
    intro hn
    obtain ⟨s, hsome, hday, hstat, hwin⟩ := ih (by omega)
    have hstep : (s.advanceDay (f n)).map forecastDays
        = dayStep (s.currentDay + 1) (forecastDays s) :=
      advanceDay_forecastDays s (f n) hstat
    have hday2 : s.currentDay + 1 = (n : ℤ) + 2 := by rw [hday]; ring
    have hdw : dayWindow (n + 1) = dayStep (s.currentDay + 1) (forecastDays s) := by
      show (dayWindow n).bind (dayStep ((n : ℤ) + 2)) = _
      rw [hwin, hday2]
      rfl
    have hsome' : (dayWindow (n + 1)).isSome := dayWindow_isSome (n + 1) (by omega)
    obtain ⟨w, hw⟩ := Option.isSome_iff_exists.mp hsome'
    have hmap : (s.advanceDay (f n)).map forecastDays = some w := by
      rw [hstep, ← hdw, hw]
    obtain ⟨s', hs', hws'⟩ := Option.map_eq_some'.mp hmap
    have hfields := advanceDay_some_fields s s' (f n) hstat hs'
    refine ⟨s', ?_, ?_, ?_, ?_⟩
    · show ((GameState.init g).advanceN f n).bind (fun t => t.advanceDay (f n)) = some s'
      rw [hsome]
      simpa using hs'
    · rw [hfields.1, hday]; push_cast; ring
    · exact hfields.2 (by rw [hday]; show (n : ℤ) + 1 + 1 ≤ TOTAL_DAYS; unfold TOTAL_DAYS; omega)
    · rw [hw, hws']

/-- Counterexample to claim C2: the window length is not constant.  The
initial window holds 7 entries, but after 5 `advanceDay` calls (day 6)
it holds only 6: the entry appended on day 5 was created for day 11,
which the `Weather` constructor clamps to day 1, so the next advance
drops it together with the genuinely stale entry. -/
theorem C2_counterexample :
    (GameState.init (fun _ => 1/2)).weatherForecast.length = 7 ∧
    ((GameState.init (fun _ => 1/2)).advanceN (fun _ => 1/2) 5).map
        (fun s => s.weatherForecast.length) = some 6 := by
  with_unfolding_all decide

/-- Claim C2 amended: starting from the initial Playing Ledger, for every
`n ≤ 9` the n-th `advanceDay` run reaches a state whose forecast window
starts with the current day, but the window length is only constant at 7
through the 4th advance and equals `min 7 (11 - n)` thereafter (the
day-11-and-beyond entries are clamped to day 1 and immediately dropped;
the 10th advance crashes on the emptied window).  Each single advance
still drops exactly the entries with `day` below the new current day and
appends exactly one entry at the tail. -/
theorem C2_window_evolution :
    (∀ (g f : ℕ → ℚ) (n : ℕ), n ≤ 9 →
      ∃ s, (GameState.init g).advanceN f n = some s ∧
        s.currentDay = (n : ℤ) + 1 ∧
        (forecastDays s).head? = some s.currentDay ∧
        (forecastDays s).length = min 7 (11 - n)) ∧
    (∀ (s s' : GameState) (v : ℚ), s.gameStatus = .playing →
      s.advanceDay v = some s' →
      ∃ d : ℤ, forecastDays s'
        = (forecastDays s).filter (fun x => decide (s.currentDay + 1 ≤ x)) ++ [d]) := by
  constructor
  · intro g f n hn
    obtain ⟨s, hsome, hday, hstat, hwin⟩ := advanceN_inv g f n hn
    have hshape := dayWindow_shape n (by omega)
    have hget : (dayWindow n).getD [] = forecastDays s := by rw [hwin]; rfl
    rw [hget] at hshape
    exact ⟨s, hsome, hday, by rw [hshape.1, hday], hshape.2⟩
  · intro s s' v hpl hs'
    have hmap := advanceDay_forecastDays s v hpl
    rw [hs'] at hmap
    simp only [Option.map_some'] at hmap
    unfold dayStep at hmap
    simp only at hmap
    cases hl : ((forecastDays s).filter (fun x => decide (s.currentDay + 1 ≤ x))).getLast? with
    | none => rw [hl] at hmap; exact absurd hmap (by simp)
    | some last =>
      rw [hl] at hmap
      simp only [Option.some.injEq] at hmap
      exact ⟨normalizeDay (last + 1), hmap⟩

/-- Witness for C2's amended claim after 3 advances. -/
theorem C2_witness :
    ∃ s, (GameState.init (fun _ => 1/2)).advanceN (fun _ => 1/2) 3 = some s ∧
      s.currentDay = ((3 : ℕ) : ℤ) + 1 ∧
      (forecastDays s).head? = some s.currentDay ∧
      (forecastDays s).length = min 7 (11 - 3) :=
  C2_window_evolution.1 (fun _ => 1/2) (fun _ => 1/2) 3 (by omega)

end FarmRescue
